import Mathlib

/-!
Shallow embedding of the Session & Matching Engine of the
attendance-monitoring backend (`backend/teacher/attendance_records.py` and
`backend/student/demo_session.py`).  Times are rationals measured in
seconds, embeddings are lists of rationals, ids are strings.  External
collaborators (the Supabase store, the scipy cosine function, the face
detector) are passed in as explicit parameters, exactly where the Python
code calls out to them.
-/

/-- Python truthiness of an optional string: `None` and `""` are falsy. -/
def pyFalsy : Option String → Bool
  | none => true
  | some s => s.isEmpty

/-- Mirror of Python `str.lower()` restricted to the characters we use. -/
def strLower (s : String) : String :=
  String.mk (s.data.map Char.toLower)

/-- Does `hay` start with `needle`? -/
def is_sub_at : List Char → List Char → Bool
  | [], _ => true
  | _ :: _, [] => false
  | a :: as, b :: bs => a == b && is_sub_at as bs

/-- Mirror of Python `needle in hay` for strings, as character lists. -/
def has_sub (needle : List Char) : List Char → Bool
  | [] => needle.isEmpty
  | hay@(_ :: rest) => is_sub_at needle hay || has_sub needle rest

/-- Componentwise sum of a list of equal-length vectors (`np.sum(..., axis=0)`). -/
def vecSum : List (List ℚ) → List ℚ
  | [] => []
  | [v] => v
  | v :: vs => List.zipWith (· + ·) v (vecSum vs)

/-- Componentwise mean of a list of vectors, mirroring `np.mean(es, axis=0)`. -/
def avgEmbedding (es : List (List ℚ)) : List ℚ :=
  (vecSum es).map (fun x => x / (es.length : ℚ))

/-- Mirror of Python `round(x, 4)` (half-to-even differences at exact ties are
below the granularity any claim inspects). -/
def round4 (x : ℚ) : ℚ := (round (x * 10000) : ℤ) / 10000

/-- Mirror of Python `round(x, 1)`. -/
def round1 (x : ℚ) : ℚ := (round (x * 10) : ℤ) / 10

/-! ## Data model -/

/-- A row of the Supabase `students` table. -/
structure Student where
  id : String
  student_id : String
  student_name : String
  department : Option String
  year : Option String
  division : Option String
  embeddings : Option (List (List ℚ))
deriving DecidableEq

/-- A row of the Supabase `attendance_sessions` table. -/
structure SessionRow where
  id : String
  session_id : String
  subject : String
  department : String
  year : String
  division : String
  date : Option String
  start_time : ℚ
  end_time : Option ℚ
  ended_at : Option ℚ
  status : String
deriving DecidableEq

/-- A row of the Supabase `attendance_records` table. -/
structure Rec where
  session_id : String
  student_id : String
  student_enrollment : String
  student_name : String
  status : String
  confidence : ℚ
  marked_at : ℚ
deriving DecidableEq

/-- A pending `threading.Timer` scheduled by `create_session`; the source
never cancels these. -/
structure Timer where
  fire_at : ℚ
  session_id : String
deriving DecidableEq

/-- The persistent store plus the process-local timer set. -/
structure Db where
  sessions : List SessionRow
  attendance_records : List Rec
  students : List Student
  timers : List Timer
deriving DecidableEq

/-! ## Demo embedding cache and matcher (`student/demo_session.py`) -/

/-- An entry of the demo `EmbeddingCache` (`student/demo_session.py`). -/
structure CachedStudent where
  embedding : List ℚ
  studentId : String
  studentName : String
deriving DecidableEq

/-- One iteration of the scan in `find_best_match_optimized` lines 134-140:
update `(best_match, min_distance)` when the new distance is smaller
(`min_distance` starts at `float('inf')`, represented by `none`). -/
def fbm_step (cos : List ℚ → List ℚ → ℚ) (query : List ℚ)
    (st : Option CachedStudent × Option ℚ) (sd : CachedStudent) :
    Option CachedStudent × Option ℚ :=
  let d := cos query sd.embedding
  match st.2 with
  | none => (some sd, some d)
  | some m => if d < m then (some sd, some d) else st

/-- `find_best_match_optimized` of `student/demo_session.py` lines 123-142,
taking the cached candidate list and the external cosine-distance function as
parameters.  Returns `(best_match when min_distance < threshold, min_distance)`
with `none` standing for Python `None` / `float('inf')`. -/
def find_best_match_optimized (cos : List ℚ → List ℚ → ℚ) (query_embedding : List ℚ)
    (cached_embeddings : List CachedStudent) (threshold : ℚ) :
    Option CachedStudent × Option ℚ :=
  if cached_embeddings.isEmpty then (none, none)
  else
    let st := cached_embeddings.foldl (fbm_step cos query_embedding) (none, none)
    (match st.2 with
     | some m => if m < threshold then st.1 else none
     | none => none,
     st.2)

/-! ## Attendance embedding cache (`teacher/attendance_records.py` lines 110-158) -/

/-- The JSON body of a `create_session` request (fields read via `data.get`). -/
structure CreateRequest where
  duration_minutes : Option ℤ
  subject : Option String
  department : Option String
  year : Option String
  division : Option String
  date : Option String
deriving DecidableEq

/-- Outcome of `create_session`. -/
inductive CreateResult
  | validation_error
  | created (session_id : String)
deriving DecidableEq

/-- `session_id = f"session_{int(datetime.now().timestamp())}"` (line 270). -/
def mk_session_id (now : ℚ) : String := "session_" ++ toString (⌊now⌋ : ℤ)

/-- `create_session` (lines 198-317): validate the duration, insert an
`active` session row with `end_time = now + duration`, and start a
`threading.Timer` for the auto-close; the timer is recorded in `Db.timers`
and is never cancelled anywhere in the source. -/
def create_session (req : CreateRequest) (now : ℚ) (db : Db) : CreateResult × Db :=
  let duration_minutes := req.duration_minutes.getD 20
  if duration_minutes < 5 || duration_minutes > 120 then
    (.validation_error, db)
  else
    let end_time := now + (duration_minutes : ℚ) * 60
    let session_id := mk_session_id now
    let row : SessionRow :=
      { id := "row_" ++ session_id,
        session_id := session_id,
        subject := (req.subject.map (fun s => s.take 50)).getD "",
        department := (req.department.map (fun s => s.take 50)).getD "",
        year := (req.year.map (fun s => s.take 20)).getD "",
        division := (req.division.map (fun s => s.take 10)).getD "",
        date := req.date,
        start_time := now,
        end_time := some end_time,
        ended_at := none,
        status := "active" }
    (.created session_id,
     { db with sessions := db.sessions ++ [row],
               timers := db.timers ++ [⟨end_time, session_id⟩] })

/-- Row update performed by `auto_close_session` (lines 26-29): set status
`ended` and stamp `ended_at`, unconditionally on the current status. -/
def auto_close_row (sid : String) (now : ℚ) (r : SessionRow) : SessionRow :=
  if r.session_id == sid then { r with status := "ended", ended_at := some now } else r

/-- `auto_close_session` (lines 20-34), the body of the deferred timer. -/
def auto_close_session (session_id : String) (now : ℚ) (db : Db) : Db :=
  { db with sessions := db.sessions.map (auto_close_row session_id now) }

/-- Outcome of `end_session`. -/
inductive EndResult
  | missing_session_id
  | not_found
  | success
deriving DecidableEq

/-- Row update performed by `end_session` (lines 443-446): set status `ended`
and overwrite `end_time` with the current time, unconditionally. -/
def end_session_row (sid : String) (now : ℚ) (r : SessionRow) : SessionRow :=
  if r.session_id == sid then { r with status := "ended", end_time := some now } else r

/-- `end_session` (lines 429-458): update every row matching the session id;
404 when nothing matched.  No timer is cancelled. -/
def end_session (session_id : Option String) (now : ℚ) (db : Db) : EndResult × Db :=
  if pyFalsy session_id then (.missing_session_id, db)
  else
    let sid := session_id.getD ""
    if db.sessions.any (fun r => r.session_id == sid) then
      (.success, { db with sessions := db.sessions.map (end_session_row sid now) })
    else
      (.not_found, db)

/-- Outcome of `get_session_status`. -/
inductive StatusResult
  | not_found
  | status_ok (status : String) (remaining_minutes : ℤ)
deriving DecidableEq

/-- Row update performed by the lazy-expiry branches of `get_session_status`
(lines 385-387 and 405-407): set status `ended` only. -/
def expire_row (sid : String) (r : SessionRow) : SessionRow :=
  if r.session_id == sid then { r with status := "ended" } else r

/-- `get_session_status` (lines 357-427): look the session up, lazily flip an
expired `active` session to `ended`, and report the remaining minutes. -/
def get_session_status (session_id : String) (now : ℚ) (db : Db) : StatusResult × Db :=
  match (db.sessions.filter (fun r => r.session_id == session_id)).head? with
  | none => (.not_found, db)
  | some session =>
    match session.end_time with
    | some scheduled_end_time =>
        if now ≥ scheduled_end_time ∧ session.status = "active" then
          (.status_ok "ended" 0,
           { db with sessions := db.sessions.map (expire_row session_id) })
        else
          (.status_ok session.status (max 0 ⌊(scheduled_end_time - now) / 60⌋), db)
    | none =>
        let default_end_time := session.start_time + 20 * 60
        if now ≥ default_end_time ∧ session.status = "active" then
          (.status_ok "ended" 0,
           { db with sessions := db.sessions.map (expire_row session_id) })
        else
          (.status_ok session.status (max 0 ⌊(default_end_time - now) / 60⌋), db)

/-! ## The `/real-mark` endpoint (`mark_attendance_with_duplicate_prevention`,
`teacher/attendance_records.py` lines 460-710) -/

/-- Status tag of one entry of the per-face `results` list. -/
inductive FaceStatus
  | marked_present
  | duplicate
  | no_match
  | error
deriving DecidableEq

/-- One entry of the per-face `results` list (payload keys the claims do not
inspect, such as `box` and `message`, are abstracted away). -/
structure FaceResult where
  status : FaceStatus
  matched : Option String
  distance : Option ℚ
deriving DecidableEq

/-- A detected face after the external embedding extraction step:
`extract_embedding_optimized` returns `None` on failure. -/
structure FaceInput where
  emb : Option (List ℚ)
deriving DecidableEq

/-- A store operation issued by the endpoint, for stating frame effects. -/
inductive StoreOp
  | query_sessions (session_id : String)
  | query_attendance (session_uuid : String)
  | query_students
  | query_attendance_pair (session_uuid student_enrollment : String)
  | insert_attendance (session_uuid student_enrollment : String)
deriving DecidableEq

/-- Line 649: classify the text of a raised store exception, mirroring
`"duplicate key" in str(db_error).lower() or "unique constraint" in ...`. -/
def is_unique_violation (msg : String) : Bool :=
  has_sub "duplicate key".data (strLower msg).data
    || has_sub "unique constraint".data (strLower msg).data

/-- Modelled from the spec (section 6, `EmbeddingStore.InsertAttendance`):
the store itself is an external collaborator not under `src/`; per the spec it
enforces a uniqueness constraint on (session, identity) and raises a
`duplicate key ... unique constraint` error on conflict, otherwise it inserts
and returns the inserted row. -/
def insertAttendance (recs : List Rec) (r : Rec) :
    Except String (List Rec) × List Rec :=
  if recs.any (fun x =>
      x.session_id == r.session_id && x.student_enrollment == r.student_enrollment) then
    (.error "duplicate key value violates unique constraint", recs)
  else
    (.ok [r], recs ++ [r])

/-- Lines 615-671: turn the insert outcome into the per-face status — data
returned means `marked_present`, no data means `error`, a raised uniqueness
conflict means `duplicate`, any other raised error means `error`. -/
def classify_insert (res : Except String (List Rec)) : FaceStatus :=
  match res with
  | .ok data => if data.isEmpty then .error else .marked_present
  | .error msg => if is_unique_violation msg then .duplicate else .error

/-- Line 525: `supabase.table('students').select('*').not_.is_('embeddings',
'null')` — every student whose embeddings field is non-null, with no filter on
the session's scope attributes. -/
def recognition_candidates (students : List Student) : List Student :=
  students.filter (fun s => s.embeddings.isSome)

/-- One iteration of the inline matching scan (lines 545-559): skip students
with an empty embeddings list, average the rest, keep the closest. -/
def inline_step (cos : List ℚ → List ℚ → ℚ) (emb : List ℚ)
    (st : Option Student × Option ℚ) (s : Student) : Option Student × Option ℚ :=
  match s.embeddings with
  | some (e :: es) =>
      let d := cos emb (avgEmbedding (e :: es))
      match st.2 with
      | none => (some s, some d)
      | some m => if d < m then (some s, some d) else st
  | _ => st

/-- The inline best-match scan of lines 544-559 (`min_d` starts at
`float("inf")`, represented by `none`). -/
def inline_best (cos : List ℚ → List ℚ → ℚ) (emb : List ℚ)
    (cand : List Student) : Option Student × Option ℚ :=
  cand.foldl (inline_step cos emb) (none, none)

/-- Which student a face resolves to: the inline scan's best match when its
minimum distance is strictly below the threshold (line 561). -/
def resolves_to (cand : List Student) (t : ℚ) (cos : List ℚ → List ℚ → ℚ)
    (f : FaceInput) : Option String :=
  match f.emb with
  | none => none
  | some emb =>
    match inline_best cos emb cand with
    | (some best, some m) => if m < t then some best.student_id else none
    | _ => none

/-- Mutable state threaded through the face loop of lines 531-682: the
in-request `already_present_students` map (its key set), the store's
attendance rows, the operations issued so far, and the `results` list. -/
structure LoopState where
  map : List String
  recs : List Rec
  ops : List StoreOp
  results : List FaceResult
deriving DecidableEq

/-- The attendance row built at lines 604-612. -/
def mk_record (sessUuid : String) (best : Student) (m now : ℚ) : Rec :=
  { session_id := sessUuid,
    student_id := best.id,
    student_enrollment := best.student_id,
    student_name := best.student_name,
    status := "present",
    confidence := round1 ((1 - m) * 100),
    marked_at := now }

/-- The body of the per-face loop (lines 531-682): embedding failure, inline
match, in-request duplicate check, database re-check, insert with conflict
reinterpretation, or no-match. -/
def process_face (cand : List Student) (t : ℚ) (cos : List ℚ → List ℚ → ℚ)
    (sessUuid : String) (now : ℚ) (st : LoopState) (f : FaceInput) : LoopState :=
  match f.emb with
  | none =>
      { st with results := st.results ++ [⟨.error, none, none⟩] }
  | some emb =>
    match inline_best cos emb cand with
    | (some best, some m) =>
        if m < t then
          let sid_stu := best.student_id
          if st.map.contains sid_stu then
            { st with results :=
                st.results ++ [⟨.duplicate, some sid_stu, some (round4 m)⟩] }
          else
            let ops1 := st.ops ++ [StoreOp.query_attendance_pair sessUuid sid_stu]
            if st.recs.any (fun x =>
                x.session_id == sessUuid && x.student_enrollment == sid_stu) then
              { st with ops := ops1,
                        results :=
                  st.results ++ [⟨.duplicate, some sid_stu, some (round4 m)⟩] }
            else
              let newRec := mk_record sessUuid best m now
              let inserted := insertAttendance st.recs newRec
              let ops2 := ops1 ++ [StoreOp.insert_attendance sessUuid sid_stu]
              let status := classify_insert inserted.1
              if status = .marked_present then
                { map := st.map ++ [sid_stu], recs := inserted.2, ops := ops2,
                  results :=
                    st.results ++ [⟨.marked_present, some sid_stu, some (round4 m)⟩] }
              else
                { st with recs := inserted.2, ops := ops2,
                          results :=
                    st.results ++ [⟨status, some sid_stu, some (round4 m)⟩] }
        else
          { st with results := st.results ++ [⟨.no_match, none, some (round4 m)⟩] }
    | _ =>
        { st with results := st.results ++ [⟨.no_match, none, none⟩] }

/-- The face loop folded over all detected faces. -/
def process_faces (cand : List Student) (t : ℚ) (cos : List ℚ → List ℚ → ℚ)
    (sessUuid : String) (now : ℚ) (st : LoopState) (faces : List FaceInput) :
    LoopState :=
  faces.foldl (process_face cand t cos sessUuid now) st

/-- The HTTP-level outcome of one `/real-mark` request. -/
inductive MarkResponse
  | missing_fields
  | session_not_found
  | session_not_active
  | success (faces : List FaceResult)
deriving DecidableEq

/-- The request-start state of the face loop (lines 508-529): the
`already_present_students` key set read from `attendance_records` for the
session's row id, the current store rows, the store operations issued so far
(session lookup, attendance read, student query), and an empty `results`. -/
def initial_loop_state (db : Db) (sid : String) (sess : SessionRow) : LoopState :=
  { map := (db.attendance_records.filter (fun x => x.session_id == sess.id)).map
      (fun x => x.student_enrollment),
    recs := db.attendance_records,
    ops := [StoreOp.query_sessions sid, StoreOp.query_attendance sess.id,
            StoreOp.query_students],
    results := [] }

/-- `mark_attendance_with_duplicate_prevention` (lines 460-710), with the
externally-produced detection/embedding results passed in as `faces` and the
scipy cosine function as `cos`.  Note the zero-faces early return at lines
491-497 precedes the session lookup, and the student query at line 525 is the
scope-free `recognition_candidates`. -/
def real_mark (session_id image : Option String) (faces : List FaceInput)
    (db : Db) (threshold now : ℚ) (cos : List ℚ → List ℚ → ℚ) :
    MarkResponse × Db × List StoreOp :=
  if pyFalsy session_id || pyFalsy image then (.missing_fields, db, [])
  else if faces.isEmpty then (.success [], db, [])
  else
    let sid := session_id.getD ""
    match (db.sessions.filter (fun r => r.session_id == sid)).head? with
    | none => (.session_not_found, db, [StoreOp.query_sessions sid])
    | some session_doc =>
      if session_doc.status ≠ "active" then
        (.session_not_active, db, [StoreOp.query_sessions sid])
      else
        let cand := recognition_candidates db.students
        let st0 := initial_loop_state db sid session_doc
        let st1 := process_faces cand threshold cos session_doc.id now st0 faces
        (.success st1.results, { db with attendance_records := st1.recs }, st1.ops)

/-- A sequence of `/real-mark` submissions of the same face against the same
session, one per timestamp, each request seeing the store state the previous
one left behind. -/
def submit_seq (sid : String) (img : Option String) (f : FaceInput) (t : ℚ)
    (cos : List ℚ → List ℚ → ℚ) : Db → List ℚ → Db × List MarkResponse
  | db, [] => (db, [])
  | db, now :: rest =>
      let out := real_mark (some sid) img [f] db t now cos
      let next := submit_seq sid img f t cos out.2.1 rest
      (next.1, out.1 :: next.2)

/-- Number of attendance rows for a given (session uuid, enrollment) pair. -/
def countRec (recs : List Rec) (sessUuid enrollment : String) : ℕ :=
  (recs.filter (fun x =>
    x.session_id == sessUuid && x.student_enrollment == enrollment)).length

/-- The per-face statuses of a response, when it is a success response. -/
def face_statuses : MarkResponse → Option (List FaceStatus)
  | .success rs => some (rs.map (fun r => r.status))
  | _ => none

/-- Loop-state invariant: every `marked_present` result already recorded its
student in the in-request `already_present_students` map. -/
def results_inv (st : LoopState) : Prop :=
  ∀ r ∈ st.results, r.status = FaceStatus.marked_present →
    ∀ j, r.matched = some j → j ∈ st.map

/-! ## Theorems -/

/-- C7: `create_session` rejects with a validation error exactly when the
requested duration lies outside [5, 120]; a rejected request creates nothing,
an accepted one returns the created session id. -/
theorem create_session_duration_validation
    (req : CreateRequest) (now : ℚ) (db : Db) (d : ℤ)
    (hd : req.duration_minutes = some d) :
    ((create_session req now db).1 = CreateResult.validation_error ↔ (d < 5 ∨ d > 120))
    ∧ ((d < 5 ∨ d > 120) → (create_session req now db).2 = db)
    ∧ (¬(d < 5 ∨ d > 120) →
        (create_session req now db).1 = CreateResult.created (mk_session_id now)) := by
  simp only [create_session, hd, Option.getD_some]
  by_cases h5 : d < 5
  · simp [h5]
  · by_cases h120 : d > 120
    · simp [h5, h120]
    · simp [h5, h120]

/-- C7 witness: duration 4 and 121 are rejected, 5 and 120 are accepted. -/
theorem create_session_duration_validation_witness :
    (create_session ⟨some 4, none, none, none, none, none⟩ 0 ⟨[], [], [], []⟩).1
      = CreateResult.validation_error
    ∧ (create_session ⟨some 121, none, none, none, none, none⟩ 0 ⟨[], [], [], []⟩).1
      = CreateResult.validation_error
    ∧ (create_session ⟨some 5, none, none, none, none, none⟩ 0 ⟨[], [], [], []⟩).1
      = CreateResult.created "session_0"
    ∧ (create_session ⟨some 120, none, none, none, none, none⟩ 0 ⟨[], [], [], []⟩).1
      = CreateResult.created "session_0" := by
  refine ⟨?_, ?_, ?_, ?_⟩
  · exact (create_session_duration_validation _ 0 _ 4 rfl).1.mpr (Or.inl (by decide))
  · exact (create_session_duration_validation _ 0 _ 121 rfl).1.mpr (Or.inr (by decide))
  · have h := (create_session_duration_validation ⟨some 5, none, none, none, none, none⟩
      0 ⟨[], [], [], []⟩ 5 rfl).2.2 (by decide)
    simpa using h
  · have h := (create_session_duration_validation ⟨some 120, none, none, none, none, none⟩
      0 ⟨[], [], [], []⟩ 120 rfl).2.2 (by decide)
    simpa using h

/-- C2: an insert that fails because the (session, identity) pair already
exists is classified as the duplicate outcome (and inserts nothing), while a
raised error that is not a uniqueness violation is classified as an error
outcome. -/
theorem conflict_reinterpreted_as_duplicate
    (recs : List Rec) (r : Rec) (msg : String) :
    ((∃ x ∈ recs, x.session_id = r.session_id
        ∧ x.student_enrollment = r.student_enrollment) →
      classify_insert (insertAttendance recs r).1 = FaceStatus.duplicate
      ∧ (insertAttendance recs r).2 = recs)
    ∧ (is_unique_violation msg = false →
        classify_insert (Except.error msg) = FaceStatus.error) := by
  constructor
  · intro h
    have hany : recs.any (fun x =>
        x.session_id == r.session_id && x.student_enrollment == r.student_enrollment)
        = true := by
      rcases h with ⟨x, hx, h1, h2⟩
      simp only [List.any_eq_true, Bool.and_eq_true, beq_iff_eq]
      exact ⟨x, hx, h1, h2⟩
    simp only [insertAttendance, hany, if_true]
    exact ⟨by decide, trivial⟩
  · intro h
    simp [classify_insert, h]

/-- C2 witness: a conflicting insert is reported as duplicate; a timeout is
reported as an error. -/
theorem conflict_reinterpreted_as_duplicate_witness :
    (classify_insert (insertAttendance [⟨"S", "u", "E", "N", "present", 0, 0⟩]
        ⟨"S", "u2", "E", "N", "present", 0, 5⟩).1 = FaceStatus.duplicate
      ∧ (insertAttendance [⟨"S", "u", "E", "N", "present", 0, 0⟩]
        ⟨"S", "u2", "E", "N", "present", 0, 5⟩).2
        = [⟨"S", "u", "E", "N", "present", 0, 0⟩])
    ∧ classify_insert (Except.error "timeout") = FaceStatus.error := by
  constructor
  · exact (conflict_reinterpreted_as_duplicate _ _ "timeout").1
      ⟨⟨"S", "u", "E", "N", "present", 0, 0⟩, by simp, rfl, rfl⟩
  · exact (conflict_reinterpreted_as_duplicate [] ⟨"S", "u", "E", "N", "present", 0, 0⟩
      "timeout").2 (by decide)

theorem fbm_fold_isSome (cos : List ℚ → List ℚ → ℚ) (q : List ℚ)
    (l : List CachedStudent) :
    ∀ (b : CachedStudent) (m : ℚ),
      ∃ b2 m2, l.foldl (fbm_step cos q) (some b, some m) = (some b2, some m2) := by
  induction l with
  | nil => intro b m; exact ⟨b, m, rfl⟩
  | cons x xs ih =>
    intro b m
    simp only [List.foldl_cons, fbm_step]
    split
    · exact ih x _
    · exact ih b m

theorem fbm_fold_ne_nil (cos : List ℚ → List ℚ → ℚ) (q : List ℚ)
    (l : List CachedStudent) (h : l ≠ []) :
    ∃ b m, l.foldl (fbm_step cos q) (none, none) = (some b, some m) := by
  match l with
  | x :: xs =>
    simp only [List.foldl_cons]
    have hstep : fbm_step cos q (none, none) x = (some x, some (cos q x.embedding)) := rfl
    rw [hstep]
    exact fbm_fold_isSome cos q xs x _

/-- C5: on a non-empty candidate list, `find_best_match_optimized` always
returns the minimum distance, accepts a match exactly when that distance is
strictly below the threshold, and in particular returns no match when the
minimum distance equals the threshold. -/
theorem find_best_match_strict_threshold
    (cos : List ℚ → List ℚ → ℚ) (q : List ℚ) (l : List CachedStudent) (t : ℚ)
    (h : l ≠ []) :
    ∃ m, (find_best_match_optimized cos q l t).2 = some m
      ∧ ((find_best_match_optimized cos q l t).1.isSome ↔ m < t)
      ∧ (m = t → (find_best_match_optimized cos q l t).1 = none) := by
  obtain ⟨b, m, hfold⟩ := fbm_fold_ne_nil cos q l h
  have hne : l.isEmpty = false := by
    cases l with
    | nil => exact absurd rfl h
    | cons x xs => rfl
  refine ⟨m, ?_, ?_, ?_⟩
  · simp [find_best_match_optimized, hne, hfold]
  · simp only [find_best_match_optimized, hne, Bool.false_eq_true, if_false, hfold]
    by_cases hm : m < t
    · simp [hm]
    · simp [hm]
  · intro hmt
    simp [find_best_match_optimized, hne, hfold, hmt]

/-- C5 witness: with a single candidate at distance exactly 0.6 and threshold
0.6, the result is no match. -/
theorem find_best_match_strict_threshold_witness :
    (find_best_match_optimized (fun _ _ => (6 : ℚ)/10) [0] [⟨[0], "A", "A"⟩]
      ((6 : ℚ)/10)).1 = none := by
  obtain ⟨m, hm, _, hbd⟩ := find_best_match_strict_threshold
    (fun _ _ => (6 : ℚ)/10) [0] [⟨[0], "A", "A"⟩] ((6 : ℚ)/10) (by simp)
  have h2 : (find_best_match_optimized (fun _ _ => (6 : ℚ)/10) [0] [⟨[0], "A", "A"⟩]
      ((6 : ℚ)/10)).2 = some (6/10) := by with_unfolding_all rfl
  rw [hm] at h2
  exact hbd (Option.some.inj h2)

/-- C9: when face detection produced zero faces, `/real-mark` returns a
success response with an empty faces list, touches no store table (no session
lookup, no attendance read or write), and leaves the store unchanged. -/
theorem zero_faces_early_return
    (sid img : Option String) (db : Db) (t now : ℚ) (cos : List ℚ → List ℚ → ℚ)
    (h1 : pyFalsy sid = false) (h2 : pyFalsy img = false) :
    real_mark sid img [] db t now cos = (.success [], db, []) := by
  simp [real_mark, h1, h2]

/-- C9 witness: zero detected faces against a session id that does not even
exist in the store still yields the success response with no store access. -/
theorem zero_faces_early_return_witness :
    real_mark (some "session_missing") (some "img") [] ⟨[], [], [], []⟩
      ((6 : ℚ)/10) 0 (fun _ _ => 0)
      = (.success [], ⟨[], [], [], []⟩, []) :=
  zero_faces_early_return (some "session_missing") (some "img") ⟨[], [], [], []⟩
    ((6 : ℚ)/10) 0 (fun _ _ => 0) rfl rfl

/-- C3: the auto-close timer scheduled by `create_session` is never cancelled
by a manual `end_session`, and when it later fires it re-updates the already
manually-ended session (stamping `ended_at`), contradicting the required
cancellation: a session of duration 20 minutes created at t=0 is manually
ended at t=300s, yet the timer survives and at t=1200s rewrites the row. -/
theorem auto_close_timer_not_cancelled :
    (end_session (some "session_0") 300
        (create_session ⟨some 20, none, none, none, none, none⟩ 0 ⟨[], [], [], []⟩).2).1
      = EndResult.success
    ∧ (end_session (some "session_0") 300
        (create_session ⟨some 20, none, none, none, none, none⟩ 0 ⟨[], [], [], []⟩).2).2.timers
      = [⟨1200, "session_0"⟩]
    ∧ (auto_close_session "session_0" 1200
        (end_session (some "session_0") 300
          (create_session ⟨some 20, none, none, none, none, none⟩ 0
            ⟨[], [], [], []⟩).2).2).sessions
      ≠ (end_session (some "session_0") 300
          (create_session ⟨some 20, none, none, none, none, none⟩ 0
            ⟨[], [], [], []⟩).2).2.sessions
    ∧ (auto_close_session "session_0" 1200
        (end_session (some "session_0") 300
          (create_session ⟨some 20, none, none, none, none, none⟩ 0
            ⟨[], [], [], []⟩).2).2).sessions.map (fun r => r.ended_at)
      = [some 1200] :=
  ⟨by with_unfolding_all rfl, by with_unfolding_all rfl,
   of_decide_eq_true (by with_unfolding_all rfl), by with_unfolding_all rfl⟩

/-- C6 counterexample: `end_session` on a session already `ended` (with stored
`end_time` 100) returns success but overwrites `end_time` with the current
time 200 — the stored state is not left unchanged. -/
theorem end_session_overwrites_end_time :
    (end_session (some "s1") 200
        ⟨[⟨"row_s1", "s1", "", "", "", "", none, 0, some 100, none, "ended"⟩],
         [], [], []⟩).1 = EndResult.success
    ∧ (end_session (some "s1") 200
        ⟨[⟨"row_s1", "s1", "", "", "", "", none, 0, some 100, none, "ended"⟩],
         [], [], []⟩).2.sessions.map (fun r => r.end_time) = [some 200]
    ∧ (end_session (some "s1") 200
        ⟨[⟨"row_s1", "s1", "", "", "", "", none, 0, some 100, none, "ended"⟩],
         [], [], []⟩).2
      ≠ ⟨[⟨"row_s1", "s1", "", "", "", "", none, 0, some 100, none, "ended"⟩],
         [], [], []⟩ :=
  ⟨by with_unfolding_all rfl, by with_unfolding_all rfl,
   of_decide_eq_true (by with_unfolding_all rfl)⟩

/-- C6 amended: `end_session` on a session already in status `ended` returns
success and every session operation keeps an `ended` row's status equal to
`ended`, but `end_session` overwrites the matched row's stored `end_time`
with the current time. -/
theorem end_session_idempotent_status
    (db : Db) (sid : String) (now : ℚ) (r : SessionRow)
    (hsid : pyFalsy (some sid) = false) (hmem : r ∈ db.sessions)
    (hrid : r.session_id = sid) (hended : r.status = "ended") :
    (end_session (some sid) now db).1 = EndResult.success
    ∧ (∀ x ∈ db.sessions, x.status = "ended" →
        (end_session_row sid now x).status = "ended"
        ∧ (auto_close_row sid now x).status = "ended"
        ∧ (expire_row sid x).status = "ended")
    ∧ (end_session_row sid now r).end_time = some now := by
  refine ⟨?_, ?_, ?_⟩
  · have hany : db.sessions.any (fun x => x.session_id == sid) = true := by
      simp only [List.any_eq_true, beq_iff_eq]
      exact ⟨r, hmem, hrid⟩
    simp [end_session, hsid, hany]
  · intro x hx hxe
    refine ⟨?_, ?_, ?_⟩
    · simp only [end_session_row]
      split
      · rfl
      · exact hxe
    · simp only [auto_close_row]
      split
      · rfl
      · exact hxe
    · simp only [expire_row]
      split
      · rfl
      · exact hxe
  · simp [end_session_row, hrid]

/-- C6 amended witness: a second `end_session` call at time 200 on an ended
session keeps the status `ended`, reports success, and stamps the new time. -/
theorem end_session_idempotent_status_witness :
    (end_session (some "s1") 200
        ⟨[⟨"row_s1", "s1", "", "", "", "", none, 0, some 100, none, "ended"⟩],
         [], [], []⟩).1 = EndResult.success
    ∧ (end_session_row "s1" 200
        ⟨"row_s1", "s1", "", "", "", "", none, 0, some 100, none, "ended"⟩).status
      = "ended"
    ∧ (end_session_row "s1" 200
        ⟨"row_s1", "s1", "", "", "", "", none, 0, some 100, none, "ended"⟩).end_time
      = some 200 := by
  have h := end_session_idempotent_status
    ⟨[⟨"row_s1", "s1", "", "", "", "", none, 0, some 100, none, "ended"⟩], [], [], []⟩
    "s1" 200 ⟨"row_s1", "s1", "", "", "", "", none, 0, some 100, none, "ended"⟩
    (by with_unfolding_all rfl) (by simp) rfl rfl
  exact ⟨h.1,
    (h.2.1 ⟨"row_s1", "s1", "", "", "", "", none, 0, some 100, none, "ended"⟩
      (by simp) rfl).1, h.2.2⟩

/-- C4 counterexample: a `/real-mark` request against a session scoped to
department "CS" matches and marks student "B", whose department is "EE" —
an identity outside the session's scope is considered and even recorded.
(The query embedding `[1]` is at distance 1 from the in-scope student and
distance 0 from the out-of-scope one.) -/
theorem real_mark_matches_out_of_scope :
    (real_mark (some "s1") (some "img") [⟨some [1]⟩]
        ⟨[⟨"U1", "s1", "", "CS", "", "", none, 0, some 1200, none, "active"⟩], [],
         [⟨"idA", "A", "Alice", some "CS", some "2", some "B", some [[0]]⟩,
          ⟨"idB", "B", "Bob", some "EE", some "3", some "C", some [[1]]⟩], []⟩
        ((6 : ℚ)/10) 50 (fun a b => |a.headD 0 - b.headD 0|)).1
      = MarkResponse.success [⟨FaceStatus.marked_present, some "B", some 0⟩]
    ∧ (real_mark (some "s1") (some "img") [⟨some [1]⟩]
        ⟨[⟨"U1", "s1", "", "CS", "", "", none, 0, some 1200, none, "active"⟩], [],
         [⟨"idA", "A", "Alice", some "CS", some "2", some "B", some [[0]]⟩,
          ⟨"idB", "B", "Bob", some "EE", some "3", some "C", some [[1]]⟩], []⟩
        ((6 : ℚ)/10) 50 (fun a b => |a.headD 0 - b.headD 0|)).2.1.attendance_records.map
        (fun r => r.student_enrollment) = ["B"]
    ∧ ([⟨"idA", "A", "Alice", some "CS", some "2", some "B", some [[0]]⟩,
        (⟨"idB", "B", "Bob", some "EE", some "3", some "C", some [[1]]⟩ : Student)].filter
        (fun s => s.student_id == "B")).map (fun s => s.department) = [some "EE"]
    ∧ (⟨"U1", "s1", "", "CS", "", "", none, 0, some 1200, none, "active"⟩ :
        SessionRow).department = "CS" :=
  ⟨by with_unfolding_all rfl, by with_unfolding_all rfl,
   by with_unfolding_all rfl, rfl⟩

/-- C4 amended: the `/real-mark` candidate set is every student whose
embeddings field is non-null, with no scope filtering — a student whose
department differs from the session's is still a recognition candidate. -/
theorem real_mark_candidates_ignore_scope
    (students : List Student) (s : Student) (sess : SessionRow)
    (hs : s ∈ students) (he : s.embeddings.isSome = true)
    (hscope : s.department ≠ some sess.department) :
    s ∈ recognition_candidates students := by
  simp only [recognition_candidates, List.mem_filter]
  exact ⟨hs, he⟩

/-- C4 amended witness: the out-of-scope student "B" is a recognition
candidate for the "CS"-scoped session. -/
theorem real_mark_candidates_ignore_scope_witness :
    (⟨"idB", "B", "Bob", some "EE", some "3", some "C", some [[1]]⟩ : Student)
      ∈ recognition_candidates
        [⟨"idA", "A", "Alice", some "CS", some "2", some "B", some [[0]]⟩,
         ⟨"idB", "B", "Bob", some "EE", some "3", some "C", some [[1]]⟩] :=
  real_mark_candidates_ignore_scope _
    ⟨"idB", "B", "Bob", some "EE", some "3", some "C", some [[1]]⟩
    ⟨"U1", "s1", "", "CS", "", "", none, 0, some 1200, none, "active"⟩
    (by simp) rfl (by simp)


theorem pf_dup_in_map (cand : List Student) (t : ℚ) (cos : List ℚ → List ℚ → ℚ)
    (sessU : String) (now : ℚ) (st : LoopState) (f : FaceInput) (i : String)
    (hres : resolves_to cand t cos f = some i) (hmem : i ∈ st.map) :
    ∃ d, process_face cand t cos sessU now st f
      = { st with results := st.results ++ [⟨FaceStatus.duplicate, some i, d⟩] } := by
  cases hemb : f.emb with
  | none => simp [resolves_to, hemb] at hres
  | some emb =>
    rcases hib : inline_best cos emb cand with ⟨ob, om⟩
    cases ob with
    | none => simp [resolves_to, hemb, hib] at hres
    | some b =>
      cases om with
      | none => simp [resolves_to, hemb, hib] at hres
      | some m =>
        simp only [resolves_to, hemb, hib] at hres
        by_cases hmt : m < t
        · rw [if_pos hmt] at hres
          have hbi : b.student_id = i := Option.some.inj hres
          refine ⟨some (round4 m), ?_⟩
          simp [process_face, hemb, hib, hmt, hbi, hmem]
        · rw [if_neg hmt] at hres; cases hres

theorem pf_fresh_marks (cand : List Student) (t : ℚ) (cos : List ℚ → List ℚ → ℚ)
    (sessU : String) (now : ℚ) (st : LoopState) (f : FaceInput) (i : String)
    (hres : resolves_to cand t cos f = some i) (hnmem : ¬ i ∈ st.map)
    (hnorec : ∀ x ∈ st.recs, ¬(x.session_id = sessU ∧ x.student_enrollment = i)) :
    ∃ d rec2, process_face cand t cos sessU now st f
      = { map := st.map ++ [i], recs := st.recs ++ [rec2],
          ops := st.ops ++ [StoreOp.query_attendance_pair sessU i,
                            StoreOp.insert_attendance sessU i],
          results := st.results ++ [⟨FaceStatus.marked_present, some i, d⟩] }
      ∧ rec2.session_id = sessU ∧ rec2.student_enrollment = i
      ∧ rec2.status = "present" := by
  cases hemb : f.emb with
  | none => simp [resolves_to, hemb] at hres
  | some emb =>
    rcases hib : inline_best cos emb cand with ⟨ob, om⟩
    cases ob with
    | none => simp [resolves_to, hemb, hib] at hres
    | some b =>
      cases om with
      | none => simp [resolves_to, hemb, hib] at hres
      | some m =>
        simp only [resolves_to, hemb, hib] at hres
        by_cases hmt : m < t
        · rw [if_pos hmt] at hres
          have hbi : b.student_id = i := Option.some.inj hres
          have hany : (st.recs.any fun x =>
              x.session_id == sessU && x.student_enrollment == i) = false := by
            rw [List.any_eq_false]
            intro x hx
            simp only [Bool.and_eq_true, beq_iff_eq]
            intro hcon
            exact hnorec x hx ⟨hcon.1, hcon.2⟩
          refine ⟨some (round4 m), mk_record sessU b m now, ?_, rfl, hbi, rfl⟩
          simp [process_face, hemb, hib, hmt, hbi, hnmem, hany, insertAttendance,
            classify_insert, mk_record]
        · rw [if_neg hmt] at hres; cases hres

theorem pf_guard_step (cand : List Student) (t : ℚ) (cos : List ℚ → List ℚ → ℚ)
    (sessU : String) (now : ℚ) (st : LoopState) (f : FaceInput) (i : String)
    (hmem : i ∈ st.map) :
    ∃ r, (process_face cand t cos sessU now st f).results = st.results ++ [r]
      ∧ (resolves_to cand t cos f = some i → r.status = FaceStatus.duplicate)
      ∧ (∀ op ∈ (process_face cand t cos sessU now st f).ops,
          op ∈ st.ops ∨ ¬ op = StoreOp.insert_attendance sessU i)
      ∧ i ∈ (process_face cand t cos sessU now st f).map := by
  cases hemb : f.emb with
  | none =>
    have hpf : process_face cand t cos sessU now st f
        = { st with results := st.results ++ [⟨FaceStatus.error, none, none⟩] } := by
      simp [process_face, hemb]
    rw [hpf]
    exact ⟨_, rfl, fun h => by simp [resolves_to, hemb] at h,
      fun op hop => Or.inl hop, hmem⟩
  | some emb =>
    rcases hib : inline_best cos emb cand with ⟨ob, om⟩
    cases ob with
    | none =>
      have hpf : process_face cand t cos sessU now st f
          = { st with results := st.results ++ [⟨FaceStatus.no_match, none, none⟩] } := by
        simp [process_face, hemb, hib]
      rw [hpf]
      exact ⟨_, rfl, fun h => by simp [resolves_to, hemb, hib] at h,
        fun op hop => Or.inl hop, hmem⟩
    | some b =>
      cases om with
      | none =>
        have hpf : process_face cand t cos sessU now st f
            = { st with results := st.results ++ [⟨FaceStatus.no_match, none, none⟩] } := by
          simp [process_face, hemb, hib]
        rw [hpf]
        exact ⟨_, rfl, fun h => by simp [resolves_to, hemb, hib] at h,
          fun op hop => Or.inl hop, hmem⟩
      | some m =>
        by_cases hmt : m < t
        · by_cases hc : b.student_id ∈ st.map
          · have hpf : process_face cand t cos sessU now st f
                = { st with results := st.results
                    ++ [⟨FaceStatus.duplicate, some b.student_id, some (round4 m)⟩] } := by
              simp [process_face, hemb, hib, hmt, hc]
            rw [hpf]
            exact ⟨_, rfl, fun _ => rfl, fun op hop => Or.inl hop, hmem⟩
          · have hbi : ¬ b.student_id = i := fun he => hc (he ▸ hmem)
            have hresne : resolves_to cand t cos f = some b.student_id := by
              simp [resolves_to, hemb, hib, hmt]
            by_cases hfc : (st.recs.any fun x =>
                x.session_id == sessU && x.student_enrollment == b.student_id) = true
            · have hpf : process_face cand t cos sessU now st f
                  = { st with
                      ops := st.ops ++ [StoreOp.query_attendance_pair sessU b.student_id],
                      results := st.results
                        ++ [⟨FaceStatus.duplicate, some b.student_id, some (round4 m)⟩] } := by
                simp [process_face, hemb, hib, hmt, hc, hfc]
              rw [hpf]
              refine ⟨_, rfl, fun _ => rfl, ?_, hmem⟩
              intro op hop
              rcases List.mem_append.mp hop with h1 | h1
              · exact Or.inl h1
              · refine Or.inr ?_
                rcases List.mem_singleton.mp h1 with rfl
                intro hcon
                cases hcon
            · have hfcf : (st.recs.any fun x =>
                  x.session_id == sessU && x.student_enrollment == b.student_id)
                  = false := by simpa using hfc
              by_cases hst : classify_insert (insertAttendance st.recs
                  (mk_record sessU b m now)).1 = FaceStatus.marked_present
              · have hpf : process_face cand t cos sessU now st f
                    = { map := st.map ++ [b.student_id],
                        recs := (insertAttendance st.recs (mk_record sessU b m now)).2,
                        ops := st.ops
                          ++ [StoreOp.query_attendance_pair sessU b.student_id,
                              StoreOp.insert_attendance sessU b.student_id],
                        results := st.results
                          ++ [⟨FaceStatus.marked_present, some b.student_id,
                               some (round4 m)⟩] } := by
                  simp [process_face, hemb, hib, hmt, hc, hfcf, hst]
                rw [hpf]
                refine ⟨_, rfl, ?_, ?_, List.mem_append_left _ hmem⟩
                · intro h
                  rw [hresne] at h
                  exact absurd (Option.some.inj h) hbi
                · intro op hop
                  rcases List.mem_append.mp hop with h1 | h1
                  · exact Or.inl h1
                  · refine Or.inr ?_
                    simp only [List.mem_cons, List.not_mem_nil, or_false] at h1
                    rcases h1 with rfl | rfl
                    · intro hcon; cases hcon
                    · intro hcon
                      injection hcon with h3 h4
                      exact hbi h4
              · have hpf : process_face cand t cos sessU now st f
                    = { st with
                        recs := (insertAttendance st.recs (mk_record sessU b m now)).2,
                        ops := st.ops
                          ++ [StoreOp.query_attendance_pair sessU b.student_id,
                              StoreOp.insert_attendance sessU b.student_id],
                        results := st.results
                          ++ [⟨classify_insert (insertAttendance st.recs
                                (mk_record sessU b m now)).1, some b.student_id,
                               some (round4 m)⟩] } := by
                  simp [process_face, hemb, hib, hmt, hc, hfcf, hst]
                rw [hpf]
                refine ⟨_, rfl, ?_, ?_, hmem⟩
                · intro h
                  rw [hresne] at h
                  exact absurd (Option.some.inj h) hbi
                · intro op hop
                  rcases List.mem_append.mp hop with h1 | h1
                  · exact Or.inl h1
                  · refine Or.inr ?_
                    simp only [List.mem_cons, List.not_mem_nil, or_false] at h1
                    rcases h1 with rfl | rfl
                    · intro hcon; cases hcon
                    · intro hcon
                      injection hcon with h3 h4
                      exact hbi h4
        · have hpf : process_face cand t cos sessU now st f
              = { st with results := st.results
                  ++ [⟨FaceStatus.no_match, none, some (round4 m)⟩] } := by
            simp [process_face, hemb, hib, hmt]
          rw [hpf]
          exact ⟨_, rfl, fun h => by simp [resolves_to, hemb, hib, hmt] at h,
            fun op hop => Or.inl hop, hmem⟩

theorem pf_guard_fold (cand : List Student) (t : ℚ) (cos : List ℚ → List ℚ → ℚ)
    (sessU : String) (now : ℚ) :
    ∀ (fs : List FaceInput) (st : LoopState) (i : String), i ∈ st.map →
    ∃ rs, (process_faces cand t cos sessU now st fs).results = st.results ++ rs
      ∧ (∀ p ∈ List.zip fs rs, resolves_to cand t cos p.1 = some i →
          p.2.status = FaceStatus.duplicate)
      ∧ (∀ op ∈ (process_faces cand t cos sessU now st fs).ops,
          op ∈ st.ops ∨ ¬ op = StoreOp.insert_attendance sessU i)
      ∧ i ∈ (process_faces cand t cos sessU now st fs).map := by
  intro fs
  induction fs with
  | nil =>
    intro st i hi
    exact ⟨[], by simp [process_faces], by simp, fun op hop => Or.inl hop, hi⟩
  | cons f fs ih =>
    intro st i hi
    obtain ⟨r, hr, hdup, hops, hmem1⟩ :=
      pf_guard_step cand t cos sessU now st f i hi
    obtain ⟨rs, hrs, hdups, hopss, hmems⟩ :=
      ih (process_face cand t cos sessU now st f) i hmem1
    have hfold : process_faces cand t cos sessU now st (f :: fs)
        = process_faces cand t cos sessU now
            (process_face cand t cos sessU now st f) fs := rfl
    refine ⟨r :: rs, ?_, ?_, ?_, ?_⟩
    · rw [hfold, hrs, hr, List.append_assoc]
      rfl
    · intro p hp hres
      rw [List.zip_cons_cons] at hp
      rcases List.mem_cons.mp hp with rfl | hp2
      · exact hdup hres
      · exact hdups p hp2 hres
    · intro op hop
      rw [hfold] at hop
      rcases hopss op hop with h1 | h1
      · exact hops op h1
      · exact Or.inr h1
    · rw [hfold]
      exact hmems

theorem pf_inv_step (cand : List Student) (t : ℚ) (cos : List ℚ → List ℚ → ℚ)
    (sessU : String) (now : ℚ) (st : LoopState) (f : FaceInput)
    (hinv : results_inv st) :
    results_inv (process_face cand t cos sessU now st f) := by
  have hmono : ∀ x ∈ st.map, x ∈ (process_face cand t cos sessU now st f).map := by
    intro x hx
    cases hemb : f.emb with
    | none => simpa [process_face, hemb] using hx
    | some emb =>
      rcases hib : inline_best cos emb cand with ⟨ob, om⟩
      cases ob with
      | none => simpa [process_face, hemb, hib] using hx
      | some b =>
        cases om with
        | none => simpa [process_face, hemb, hib] using hx
        | some m =>
          by_cases hmt : m < t
          · by_cases hc : b.student_id ∈ st.map
            · simpa [process_face, hemb, hib, hmt, hc] using hx
            · by_cases hfc : (st.recs.any fun y =>
                  y.session_id == sessU && y.student_enrollment == b.student_id) = true
              · simpa [process_face, hemb, hib, hmt, hc, hfc] using hx
              · have hfcf : (st.recs.any fun y =>
                    y.session_id == sessU && y.student_enrollment == b.student_id)
                    = false := by simpa using hfc
                by_cases hst : classify_insert (insertAttendance st.recs
                    (mk_record sessU b m now)).1 = FaceStatus.marked_present
                · rw [show process_face cand t cos sessU now st f
                    = { map := st.map ++ [b.student_id],
                        recs := (insertAttendance st.recs (mk_record sessU b m now)).2,
                        ops := st.ops
                          ++ [StoreOp.query_attendance_pair sessU b.student_id,
                              StoreOp.insert_attendance sessU b.student_id],
                        results := st.results
                          ++ [⟨FaceStatus.marked_present, some b.student_id,
                               some (round4 m)⟩] } from
                    by simp [process_face, hemb, hib, hmt, hc, hfcf, hst]]
                  exact List.mem_append_left _ hx
                · simpa [process_face, hemb, hib, hmt, hc, hfcf, hst] using hx
          · simpa [process_face, hemb, hib, hmt] using hx
  intro r hr hstat j hj
  cases hemb : f.emb with
  | none =>
    rw [show process_face cand t cos sessU now st f
      = { st with results := st.results ++ [⟨FaceStatus.error, none, none⟩] } from
      by simp [process_face, hemb]] at hr ⊢
    rcases List.mem_append.mp hr with h1 | h1
    · exact hinv r h1 hstat j hj
    · rcases List.mem_singleton.mp h1 with rfl
      cases hstat
  | some emb =>
    rcases hib : inline_best cos emb cand with ⟨ob, om⟩
    cases ob with
    | none =>
      rw [show process_face cand t cos sessU now st f
        = { st with results := st.results ++ [⟨FaceStatus.no_match, none, none⟩] } from
        by simp [process_face, hemb, hib]] at hr ⊢
      rcases List.mem_append.mp hr with h1 | h1
      · exact hinv r h1 hstat j hj
      · rcases List.mem_singleton.mp h1 with rfl
        cases hstat
    | some b =>
      cases om with
      | none =>
        rw [show process_face cand t cos sessU now st f
          = { st with results := st.results ++ [⟨FaceStatus.no_match, none, none⟩] } from
          by simp [process_face, hemb, hib]] at hr ⊢
        rcases List.mem_append.mp hr with h1 | h1
        · exact hinv r h1 hstat j hj
        · rcases List.mem_singleton.mp h1 with rfl
          cases hstat
      | some m =>
        by_cases hmt : m < t
        · by_cases hc : b.student_id ∈ st.map
          · rw [show process_face cand t cos sessU now st f
              = { st with results := st.results
                  ++ [⟨FaceStatus.duplicate, some b.student_id, some (round4 m)⟩] } from
              by simp [process_face, hemb, hib, hmt, hc]] at hr ⊢
            rcases List.mem_append.mp hr with h1 | h1
            · exact hinv r h1 hstat j hj
            · rcases List.mem_singleton.mp h1 with rfl
              cases hstat
          · by_cases hfc : (st.recs.any fun y =>
                y.session_id == sessU && y.student_enrollment == b.student_id) = true
            · rw [show process_face cand t cos sessU now st f
                = { st with
                    ops := st.ops ++ [StoreOp.query_attendance_pair sessU b.student_id],
                    results := st.results
                      ++ [⟨FaceStatus.duplicate, some b.student_id, some (round4 m)⟩] } from
                by simp [process_face, hemb, hib, hmt, hc, hfc]] at hr ⊢
              rcases List.mem_append.mp hr with h1 | h1
              · exact hinv r h1 hstat j hj
              · rcases List.mem_singleton.mp h1 with rfl
                cases hstat
            · have hfcf : (st.recs.any fun y =>
                  y.session_id == sessU && y.student_enrollment == b.student_id)
                  = false := by simpa using hfc
              by_cases hst : classify_insert (insertAttendance st.recs
                  (mk_record sessU b m now)).1 = FaceStatus.marked_present
              · rw [show process_face cand t cos sessU now st f
                  = { map := st.map ++ [b.student_id],
                      recs := (insertAttendance st.recs (mk_record sessU b m now)).2,
                      ops := st.ops
                        ++ [StoreOp.query_attendance_pair sessU b.student_id,
                            StoreOp.insert_attendance sessU b.student_id],
                      results := st.results
                        ++ [⟨FaceStatus.marked_present, some b.student_id,
                             some (round4 m)⟩] } from
                  by simp [process_face, hemb, hib, hmt, hc, hfcf, hst]] at hr ⊢
                rcases List.mem_append.mp hr with h1 | h1
                · exact List.mem_append_left _ (hinv r h1 hstat j hj)
                · rcases List.mem_singleton.mp h1 with rfl
                  rcases Option.some.inj hj with rfl
                  exact List.mem_append_right _ (List.mem_singleton.mpr rfl)
              · rw [show process_face cand t cos sessU now st f
                  = { st with
                      recs := (insertAttendance st.recs (mk_record sessU b m now)).2,
                      ops := st.ops
                        ++ [StoreOp.query_attendance_pair sessU b.student_id,
                            StoreOp.insert_attendance sessU b.student_id],
                      results := st.results
                        ++ [⟨classify_insert (insertAttendance st.recs
                              (mk_record sessU b m now)).1, some b.student_id,
                             some (round4 m)⟩] } from
                  by simp [process_face, hemb, hib, hmt, hc, hfcf, hst]] at hr ⊢
                rcases List.mem_append.mp hr with h1 | h1
                · exact hinv r h1 hstat j hj
                · rcases List.mem_singleton.mp h1 with rfl
                  exact absurd hstat hst
        · rw [show process_face cand t cos sessU now st f
            = { st with results := st.results
                ++ [⟨FaceStatus.no_match, none, some (round4 m)⟩] } from
            by simp [process_face, hemb, hib, hmt]] at hr ⊢
          rcases List.mem_append.mp hr with h1 | h1
          · exact hinv r h1 hstat j hj
          · rcases List.mem_singleton.mp h1 with rfl
            cases hstat

theorem pf_inv_fold (cand : List Student) (t : ℚ) (cos : List ℚ → List ℚ → ℚ)
    (sessU : String) (now : ℚ) :
    ∀ (fs : List FaceInput) (st : LoopState), results_inv st →
      results_inv (process_faces cand t cos sessU now st fs) := by
  intro fs
  induction fs with
  | nil => intro st h; exact h
  | cons f fs ih =>
    intro st h
    exact ih _ (pf_inv_step cand t cos sessU now st f h)

/-- C10: within a single `/real-mark` request, once some face in a first batch
of faces has produced a `marked_present` result for identity `i`, every face
processed afterwards in the same request that resolves to `i` yields the
duplicate outcome, and no further insert for `i` is issued to the store. -/
theorem in_request_duplicate_guard
    (cand : List Student) (t : ℚ) (cos : List ℚ → List ℚ → ℚ)
    (sessU : String) (now : ℚ) (st0 : LoopState) (fs1 fs2 : List FaceInput)
    (i : String)
    (hinv : results_inv st0)
    (hmarked : ∃ r ∈ (process_faces cand t cos sessU now st0 fs1).results,
        r.status = FaceStatus.marked_present ∧ r.matched = some i) :
    (∀ p ∈ List.zip fs2
        ((process_faces cand t cos sessU now
            (process_faces cand t cos sessU now st0 fs1) fs2).results.drop
          (process_faces cand t cos sessU now st0 fs1).results.length),
        resolves_to cand t cos p.1 = some i → p.2.status = FaceStatus.duplicate)
    ∧ (∀ op ∈ (process_faces cand t cos sessU now
          (process_faces cand t cos sessU now st0 fs1) fs2).ops,
        op ∈ (process_faces cand t cos sessU now st0 fs1).ops
          ∨ ¬ op = StoreOp.insert_attendance sessU i) := by
  have hinv1 := pf_inv_fold cand t cos sessU now fs1 st0 hinv
  obtain ⟨r, hrmem, hrst, hrmatch⟩ := hmarked
  have hi : i ∈ (process_faces cand t cos sessU now st0 fs1).map :=
    hinv1 r hrmem hrst i hrmatch
  obtain ⟨rs, hrs, hdups, hops, _⟩ :=
    pf_guard_fold cand t cos sessU now fs2
      (process_faces cand t cos sessU now st0 fs1) i hi
  constructor
  · intro p hp
    have hdrop : (process_faces cand t cos sessU now
        (process_faces cand t cos sessU now st0 fs1) fs2).results.drop
        (process_faces cand t cos sessU now st0 fs1).results.length = rs := by
      rw [hrs]
      exact List.drop_left _ _
    rw [hdrop] at hp
    exact hdups p hp
  · exact hops

/-- C10 witness: the same face submitted twice in one request — the first
marks student "A" present, the second (which resolves to "A") is reported a
duplicate and no second insert for "A" is issued. -/
theorem in_request_duplicate_guard_witness :
    (∀ p ∈ List.zip [(⟨some [0]⟩ : FaceInput)]
        ((process_faces [⟨"idA", "A", "Alice", none, none, none, some [[0]]⟩] 1
            (fun _ _ => 0) "S" 0
            (process_faces [⟨"idA", "A", "Alice", none, none, none, some [[0]]⟩] 1
              (fun _ _ => 0) "S" 0 ⟨[], [], [], []⟩ [⟨some [0]⟩])
            [⟨some [0]⟩]).results.drop
          (process_faces [⟨"idA", "A", "Alice", none, none, none, some [[0]]⟩] 1
            (fun _ _ => 0) "S" 0 ⟨[], [], [], []⟩ [⟨some [0]⟩]).results.length),
        resolves_to [⟨"idA", "A", "Alice", none, none, none, some [[0]]⟩] 1
          (fun _ _ => 0) p.1 = some "A" → p.2.status = FaceStatus.duplicate)
    ∧ (∀ op ∈ (process_faces [⟨"idA", "A", "Alice", none, none, none, some [[0]]⟩] 1
          (fun _ _ => 0) "S" 0
          (process_faces [⟨"idA", "A", "Alice", none, none, none, some [[0]]⟩] 1
            (fun _ _ => 0) "S" 0 ⟨[], [], [], []⟩ [⟨some [0]⟩])
          [⟨some [0]⟩]).ops,
        op ∈ (process_faces [⟨"idA", "A", "Alice", none, none, none, some [[0]]⟩] 1
            (fun _ _ => 0) "S" 0 ⟨[], [], [], []⟩ [⟨some [0]⟩]).ops
          ∨ ¬ op = StoreOp.insert_attendance "S" "A") :=
  in_request_duplicate_guard
    [⟨"idA", "A", "Alice", none, none, none, some [[0]]⟩] 1 (fun _ _ => 0)
    "S" 0 ⟨[], [], [], []⟩ [⟨some [0]⟩] [⟨some [0]⟩] "A"
    (fun r hr => absurd hr (List.not_mem_nil r))
    ⟨⟨FaceStatus.marked_present, some "A", some (round4 0)⟩,
     of_decide_eq_true (by with_unfolding_all rfl), rfl, rfl⟩

theorem real_mark_active (db : Db) (sid : String) (img : Option String)
    (faces : List FaceInput) (t now : ℚ) (cos : List ℚ → List ℚ → ℚ)
    (sess : SessionRow)
    (hsid : pyFalsy (some sid) = false) (himg : pyFalsy img = false)
    (hne : faces ≠ [])
    (hfind : (db.sessions.filter (fun r => r.session_id == sid)).head? = some sess)
    (hact : sess.status = "active") :
    real_mark (some sid) img faces db t now cos
      = (MarkResponse.success
          (process_faces (recognition_candidates db.students) t cos sess.id now
            (initial_loop_state db sid sess) faces).results,
         { db with attendance_records :=
            (process_faces (recognition_candidates db.students) t cos sess.id now
              (initial_loop_state db sid sess) faces).recs },
         (process_faces (recognition_candidates db.students) t cos sess.id now
           (initial_loop_state db sid sess) faces).ops) := by
  have hne' : faces.isEmpty = false := by
    cases faces with
    | nil => exact absurd rfl hne
    | cons a l => rfl
  simp only [real_mark, hsid, himg, Bool.or_self, Bool.false_eq_true, if_false,
    hne', Option.getD_some]
  rw [hfind]
  simp [hact]

theorem real_mark_single_fresh
    (db : Db) (sid : String) (img : Option String) (f : FaceInput) (t now : ℚ)
    (cos : List ℚ → List ℚ → ℚ) (sess : SessionRow) (i : String)
    (hsid : pyFalsy (some sid) = false) (himg : pyFalsy img = false)
    (hfind : (db.sessions.filter (fun r => r.session_id == sid)).head? = some sess)
    (hact : sess.status = "active")
    (hres : resolves_to (recognition_candidates db.students) t cos f = some i)
    (hfresh : ∀ x ∈ db.attendance_records,
        ¬(x.session_id = sess.id ∧ x.student_enrollment = i)) :
    ∃ d rec2,
      real_mark (some sid) img [f] db t now cos
        = (MarkResponse.success [⟨FaceStatus.marked_present, some i, d⟩],
           { db with attendance_records := db.attendance_records ++ [rec2] },
           [StoreOp.query_sessions sid, StoreOp.query_attendance sess.id,
            StoreOp.query_students, StoreOp.query_attendance_pair sess.id i,
            StoreOp.insert_attendance sess.id i])
      ∧ rec2.session_id = sess.id ∧ rec2.student_enrollment = i
      ∧ rec2.status = "present" := by
  have hnmem : ¬ i ∈ (initial_loop_state db sid sess).map := by
    simp only [initial_loop_state, List.mem_map, List.mem_filter, beq_iff_eq]
    rintro ⟨x, ⟨hx, hxs⟩, hxe⟩
    exact hfresh x hx ⟨hxs, hxe⟩
  obtain ⟨d, rec2, hpf, h1, h2, h3⟩ :=
    pf_fresh_marks (recognition_candidates db.students) t cos sess.id now
      (initial_loop_state db sid sess) f i hres hnmem hfresh
  refine ⟨d, rec2, ?_, h1, h2, h3⟩
  rw [real_mark_active db sid img [f] t now cos sess hsid himg
    (by simp) hfind hact]
  have hone : process_faces (recognition_candidates db.students) t cos sess.id now
      (initial_loop_state db sid sess) [f]
      = process_face (recognition_candidates db.students) t cos sess.id now
          (initial_loop_state db sid sess) f := rfl
  rw [hone, hpf]
  simp [initial_loop_state]

theorem real_mark_single_dup
    (db : Db) (sid : String) (img : Option String) (f : FaceInput) (t now : ℚ)
    (cos : List ℚ → List ℚ → ℚ) (sess : SessionRow) (i : String)
    (hsid : pyFalsy (some sid) = false) (himg : pyFalsy img = false)
    (hfind : (db.sessions.filter (fun r => r.session_id == sid)).head? = some sess)
    (hact : sess.status = "active")
    (hres : resolves_to (recognition_candidates db.students) t cos f = some i)
    (hdup : ∃ x ∈ db.attendance_records,
        x.session_id = sess.id ∧ x.student_enrollment = i) :
    ∃ d, real_mark (some sid) img [f] db t now cos
      = (MarkResponse.success [⟨FaceStatus.duplicate, some i, d⟩], db,
         [StoreOp.query_sessions sid, StoreOp.query_attendance sess.id,
          StoreOp.query_students]) := by
  have hmem : i ∈ (initial_loop_state db sid sess).map := by
    simp only [initial_loop_state, List.mem_map, List.mem_filter, beq_iff_eq]
    obtain ⟨x, hx, hxs, hxe⟩ := hdup
    exact ⟨x, ⟨hx, hxs⟩, hxe⟩
  obtain ⟨d, hpf⟩ := pf_dup_in_map (recognition_candidates db.students) t cos
    sess.id now (initial_loop_state db sid sess) f i hres hmem
  refine ⟨d, ?_⟩
  rw [real_mark_active db sid img [f] t now cos sess hsid himg
    (by simp) hfind hact]
  have hone : process_faces (recognition_candidates db.students) t cos sess.id now
      (initial_loop_state db sid sess) [f]
      = process_face (recognition_candidates db.students) t cos sess.id now
          (initial_loop_state db sid sess) f := rfl
  rw [hone, hpf]
  simp [initial_loop_state]

theorem submit_seq_all_dup
    (sid : String) (img : Option String) (f : FaceInput) (t : ℚ)
    (cos : List ℚ → List ℚ → ℚ) (sess : SessionRow) (i : String)
    (hsid : pyFalsy (some sid) = false) (himg : pyFalsy img = false) :
    ∀ (times : List ℚ) (db : Db),
    (db.sessions.filter (fun r => r.session_id == sid)).head? = some sess →
    sess.status = "active" →
    resolves_to (recognition_candidates db.students) t cos f = some i →
    (∃ x ∈ db.attendance_records,
        x.session_id = sess.id ∧ x.student_enrollment = i) →
    (submit_seq sid img f t cos db times).1 = db
    ∧ (submit_seq sid img f t cos db times).2.map face_statuses
        = List.replicate times.length (some [FaceStatus.duplicate]) := by
  intro times
  induction times with
  | nil => intro db _ _ _ _; exact ⟨rfl, rfl⟩
  | cons now rest ih =>
    intro db h3 h4 h5 h6
    obtain ⟨d, hd⟩ := real_mark_single_dup db sid img f t now cos sess i
      hsid himg h3 h4 h5 h6
    obtain ⟨ihdb, ihresp⟩ := ih db h3 h4 h5 h6
    constructor
    · show (submit_seq sid img f t cos
        (real_mark (some sid) img [f] db t now cos).2.1 rest).1 = db
      rw [hd]
      exact ihdb
    · show face_statuses (real_mark (some sid) img [f] db t now cos).1
        :: (submit_seq sid img f t cos
            (real_mark (some sid) img [f] db t now cos).2.1 rest).2.map face_statuses
        = List.replicate (now :: rest).length (some [FaceStatus.duplicate])
      rw [hd]
      simp only [face_statuses, List.length_cons, List.replicate_succ, List.map_cons]
      exact congrArg _ ihresp

/-- C1: starting from a store holding no attendance row for (session, i), any
sequence of N ≥ 1 `/real-mark` submissions that each resolve to identity `i`
leaves exactly one attendance row for the pair, that row has status
"present", and the responses are one `marked_present` followed by N-1
`duplicate` outcomes. -/
theorem submit_match_at_most_once
    (db : Db) (sid : String) (img : Option String) (f : FaceInput) (t : ℚ)
    (cos : List ℚ → List ℚ → ℚ) (sess : SessionRow) (i : String) (times : List ℚ)
    (hsid : pyFalsy (some sid) = false) (himg : pyFalsy img = false)
    (hfind : (db.sessions.filter (fun r => r.session_id == sid)).head? = some sess)
    (hact : sess.status = "active")
    (hres : resolves_to (recognition_candidates db.students) t cos f = some i)
    (hfresh : ∀ x ∈ db.attendance_records,
        ¬(x.session_id = sess.id ∧ x.student_enrollment = i))
    (hne : times ≠ []) :
    countRec (submit_seq sid img f t cos db times).1.attendance_records sess.id i = 1
    ∧ ((submit_seq sid img f t cos db times).1.attendance_records.filter (fun x =>
          x.session_id == sess.id && x.student_enrollment == i)).all
        (fun x => x.status == "present") = true
    ∧ (submit_seq sid img f t cos db times).2.map face_statuses
        = some [FaceStatus.marked_present]
          :: List.replicate (times.length - 1) (some [FaceStatus.duplicate]) := by
  cases times with
  | nil => exact absurd rfl hne
  | cons now rest =>
    obtain ⟨d, rec2, hEq, h1, h2, h3⟩ := real_mark_single_fresh db sid img f t now cos
      sess i hsid himg hfind hact hres hfresh
    have hdb1rec : (real_mark (some sid) img [f] db t now cos).2.1.attendance_records
        = db.attendance_records ++ [rec2] := by rw [hEq]
    have hdup1 : ∃ x ∈ (real_mark (some sid) img [f] db t now cos).2.1.attendance_records,
        x.session_id = sess.id ∧ x.student_enrollment = i := by
      rw [hdb1rec]
      exact ⟨rec2, List.mem_append_right _ (List.mem_singleton.mpr rfl), h1, h2⟩
    have hfind1 : ((real_mark (some sid) img [f] db t now cos).2.1.sessions.filter
        (fun r => r.session_id == sid)).head? = some sess := by
      rw [hEq]; exact hfind
    have hres1 : resolves_to (recognition_candidates
        (real_mark (some sid) img [f] db t now cos).2.1.students) t cos f = some i := by
      rw [hEq]; exact hres
    obtain ⟨hseqdb, hseqresp⟩ := submit_seq_all_dup sid img f t cos sess i hsid himg
      rest (real_mark (some sid) img [f] db t now cos).2.1 hfind1 hact hres1 hdup1
    have hfilter : ((real_mark (some sid) img [f] db t now cos).2.1.attendance_records).filter
        (fun x => x.session_id == sess.id && x.student_enrollment == i)
        = [rec2] := by
      rw [hdb1rec, List.filter_append]
      have hnil : db.attendance_records.filter
          (fun x => x.session_id == sess.id && x.student_enrollment == i) = [] := by
        rw [List.filter_eq_nil_iff]
        intro x hx
        simp only [Bool.and_eq_true, beq_iff_eq]
        intro hc
        exact hfresh x hx ⟨hc.1, hc.2⟩
      rw [hnil]
      simp [h1, h2]
    have hfinal : (submit_seq sid img f t cos db (now :: rest)).1
        = (real_mark (some sid) img [f] db t now cos).2.1 := hseqdb
    refine ⟨?_, ?_, ?_⟩
    · rw [countRec, hfinal, hfilter]
      rfl
    · rw [hfinal, hfilter]
      simp [h3]
    · show face_statuses (real_mark (some sid) img [f] db t now cos).1
        :: (submit_seq sid img f t cos
            (real_mark (some sid) img [f] db t now cos).2.1 rest).2.map face_statuses
        = some [FaceStatus.marked_present]
          :: List.replicate ((now :: rest).length - 1) (some [FaceStatus.duplicate])
      rw [hseqresp, hEq]
      simp [face_statuses]

/-- C1 witness: three successive submissions of the same face against one
active session — one "present" row results and the responses are
`marked_present` then two `duplicate`s. -/
theorem submit_match_at_most_once_witness :
    countRec (submit_seq "s1" (some "img") ⟨some [0]⟩ 1 (fun _ _ => 0)
        ⟨[⟨"U1", "s1", "", "", "", "", none, 0, some 1200, none, "active"⟩], [],
         [⟨"idA", "A", "Alice", none, none, none, some [[0]]⟩], []⟩
        [10, 20, 30]).1.attendance_records "U1" "A" = 1
    ∧ ((submit_seq "s1" (some "img") ⟨some [0]⟩ 1 (fun _ _ => 0)
        ⟨[⟨"U1", "s1", "", "", "", "", none, 0, some 1200, none, "active"⟩], [],
         [⟨"idA", "A", "Alice", none, none, none, some [[0]]⟩], []⟩
        [10, 20, 30]).1.attendance_records.filter (fun x =>
          x.session_id == "U1" && x.student_enrollment == "A")).all
        (fun x => x.status == "present") = true
    ∧ (submit_seq "s1" (some "img") ⟨some [0]⟩ 1 (fun _ _ => 0)
        ⟨[⟨"U1", "s1", "", "", "", "", none, 0, some 1200, none, "active"⟩], [],
         [⟨"idA", "A", "Alice", none, none, none, some [[0]]⟩], []⟩
        [10, 20, 30]).2.map face_statuses
        = some [FaceStatus.marked_present]
          :: List.replicate 2 (some [FaceStatus.duplicate]) :=
  submit_match_at_most_once
    ⟨[⟨"U1", "s1", "", "", "", "", none, 0, some 1200, none, "active"⟩], [],
     [⟨"idA", "A", "Alice", none, none, none, some [[0]]⟩], []⟩
    "s1" (some "img") ⟨some [0]⟩ 1 (fun _ _ => 0)
    ⟨"U1", "s1", "", "", "", "", none, 0, some 1200, none, "active"⟩ "A"
    [10, 20, 30]
    (by with_unfolding_all rfl) (by with_unfolding_all rfl)
    (by with_unfolding_all rfl) rfl
    (by with_unfolding_all rfl)
    (fun x hx => absurd hx (List.not_mem_nil x))
    (by simp)
